import Mathlib

/-!
Shallow embedding of the racketlon score calculator engine (src/scoring.js).

The engine is a pure function: `parseScore` (lines 24-34), `analyzeMatch`
(lines 42-112), `generateInProgressAnalysis` (117-181), `analyzeLastSport`
(186-258), `analyzeBeforeTennis` (264-371), `calculateScoreForGain`
(378-395), `analyzeMultipleSportsRemaining` (400-435).

Conventions of the embedding:
  * JavaScript strings are Lean `String`s; a possibly-`undefined` argument is
    an `Option String` (JS default parameters fire exactly on `undefined`).
  * JS numbers are `Nat` for totals and counts and `Int` for signed deltas
    and gains; all arithmetic in the source is exact small-integer
    arithmetic, so no overflow modelling is needed.
  * The result object is the `MatchResult` structure; `analysis.push`
    becomes list concatenation in source order.
-/

/-- The four sports in fixed play order (scoring.js line 12). -/
inductive Sport where
  | tabletennis
  | badminton
  | squash
  | tennis
deriving DecidableEq, Repr

/-- The SPORTS array (scoring.js line 12): fixed iteration order. -/
def SPORTS : List Sport := [Sport.tabletennis, Sport.badminton, Sport.squash, Sport.tennis]

/-- SPORT_LABELS (scoring.js lines 13-18). -/
def sportLabel : Sport → String
  | Sport.tabletennis => "Ping-pong"
  | Sport.badminton => "Badminton"
  | Sport.squash => "Squash"
  | Sport.tennis => "Tennis"

/-- MAX_POINTS_PER_SET (scoring.js line 19). -/
def MAX_POINTS_PER_SET : Nat := 21

/-- The characters matched by JavaScript `\s` (and trimmed by
`String.prototype.trim`): ASCII whitespace plus the Unicode space
separators, line separators and the BOM. -/
def JS_WHITESPACE : List Char :=
  [' ', '\t', '\n', '\r', '\x0b', '\x0c', '\u00A0', '\u1680',
   '\u2000', '\u2001', '\u2002', '\u2003', '\u2004', '\u2005', '\u2006',
   '\u2007', '\u2008', '\u2009', '\u200A', '\u2028', '\u2029', '\u202F',
   '\u205F', '\u3000', '\uFEFF']

/-- Whether a character is JavaScript whitespace. -/
def isJSWhitespace (c : Char) : Bool := JS_WHITESPACE.contains c

/-- JavaScript `String.prototype.trim` on a character list: drop leading and
trailing whitespace. -/
def trimChars (l : List Char) : List Char :=
  ((l.dropWhile isJSWhitespace).reverse.dropWhile isJSWhitespace).reverse

/-- Decimal value of a digit run, as computed by `parseInt(s, 10)` on an
all-digit string. -/
def digitsToNat (l : List Char) : Nat :=
  l.foldl (fun n c => 10 * n + (c.toNat - 48)) 0

/-- The regex match `^(\d+)-(\d+)$` of scoring.js line 29 on an
already-whitespace-free character list: a nonempty digit run, a hyphen, a
nonempty digit run, end of input.  Returns the two captured numbers. -/
def matchScorePattern (l : List Char) : Option (Nat × Nat) :=
  let d1 := l.takeWhile Char.isDigit
  let rest1 := l.dropWhile Char.isDigit
  if d1.isEmpty then none
  else
    match rest1 with
    | '-' :: rest2 =>
      let d2 := rest2.takeWhile Char.isDigit
      let rest3 := rest2.dropWhile Char.isDigit
      if d2.isEmpty then none
      else if rest3.isEmpty then some (digitsToNat d1, digitsToNat d2)
      else none
    | _ => none

/-- parseScore (scoring.js lines 24-34).  The argument is `none` when the
score entry is absent (`undefined`); `!scoreStr` is true for strings exactly
on `""`.  Line 28 removes every whitespace character anywhere in the string
(`replace(/\s+/g, "")`) before the regex match. -/
def parseScore (scoreStr : Option String) : Option (Nat × Nat) :=
  match scoreStr with
  | none => none
  | some s =>
    if s.data.isEmpty || (trimChars s.data).isEmpty || s.data == ['-'] then
      none
    else
      matchScorePattern (s.data.filter (fun c => !isJSWhitespace c))

/-- The `scores` input object of analyzeMatch: an optional raw string per
sport. -/
structure Scores where
  tabletennis : Option String
  badminton : Option String
  squash : Option String
  tennis : Option String
deriving DecidableEq, Repr

/-- Field access `scores[sport]` (scoring.js line 60). -/
def Scores.get (sc : Scores) : Sport → Option String
  | Sport.tabletennis => sc.tabletennis
  | Sport.badminton => sc.badminton
  | Sport.squash => sc.squash
  | Sport.tennis => sc.tennis

/-- One element of `result.sports` (scoring.js lines 61-67). -/
structure SportEntry where
  label : String
  played : Bool
  scoreA : Option Nat
  scoreB : Option Nat
  delta : Int
deriving DecidableEq, Repr

/-- One element of `result.analysis`: a tagged human-readable message. -/
structure AnalysisEntry where
  type : String
  message : String
deriving DecidableEq, Repr

/-- The result object of analyzeMatch (scoring.js lines 43-56). -/
structure MatchResult where
  playerA : String
  playerB : String
  sports : Sport → SportEntry
  totalA : Nat
  totalB : Nat
  currentDelta : Int
  sportsPlayed : Nat
  sportsRemaining : Nat
  maxRemainingPoints : Nat
  status : String
  winner : Option String
  analysis : List AnalysisEntry

/-- The per-sport parse results the analyzeMatch loop (lines 59-74) works
from. -/
def parsedOf (scores : Scores) : Sport → Option (Nat × Nat) :=
  fun s => parseScore (scores.get s)

/-- `result.sports[sport]` after the loop of lines 59-74. -/
def sportEntryOf (p : Sport → Option (Nat × Nat)) (s : Sport) : SportEntry :=
  match p s with
  | some (a, b) =>
    { label := sportLabel s, played := true, scoreA := some a, scoreB := some b,
      delta := (a : Int) - (b : Int) }
  | none =>
    { label := sportLabel s, played := false, scoreA := none, scoreB := none,
      delta := 0 }

/-- `result.totalA` accumulated by the loop of lines 59-74. -/
def totalAOf (p : Sport → Option (Nat × Nat)) : Nat :=
  SPORTS.foldl (fun acc s => acc + ((p s).map Prod.fst).getD 0) 0

/-- `result.totalB` accumulated by the loop of lines 59-74. -/
def totalBOf (p : Sport → Option (Nat × Nat)) : Nat :=
  SPORTS.foldl (fun acc s => acc + ((p s).map Prod.snd).getD 0) 0

/-- `result.sportsPlayed` accumulated by the loop of lines 59-74. -/
def playedCountOf (p : Sport → Option (Nat × Nat)) : Nat :=
  SPORTS.foldl (fun acc s => if (p s).isSome then acc + 1 else acc) 0

/-- `result.sportsRemaining = 4 - result.sportsPlayed` (line 76). -/
def sportsRemainingOf (p : Sport → Option (Nat × Nat)) : Nat :=
  4 - playedCountOf p

/-- `result.currentDelta = result.totalA - result.totalB` (line 77). -/
def currentDeltaOf (p : Sport → Option (Nat × Nat)) : Int :=
  (totalAOf p : Int) - (totalBOf p : Int)

/-- `result.maxRemainingPoints = sportsRemaining * MAX_POINTS_PER_SET`
(line 78). -/
def maxRemainingPointsOf (p : Sport → Option (Nat × Nat)) : Nat :=
  sportsRemainingOf p * MAX_POINTS_PER_SET

/-- calculateScoreForGain (scoring.js lines 378-395). -/
def calculateScoreForGain (gain : Int) (forB : Bool) : Option String :=
  if gain > 21 || gain < -21 then none
  else
    let loserScore : Int := max 0 (21 - gain)
    if loserScore > 21 then none
    else if forB then some (toString loserScore ++ "-21")
    else some ("21-" ++ toString loserScore)

/-- analyzeLastSport (scoring.js lines 186-258): the entries it pushes, in
order.  Note the `delta < 0` arm has no `absDelta === 21` special case,
unlike the `delta > 0` arm. -/
def analyzeLastSport (playerA playerB : String) (delta : Int) (sportLabel : String) :
    List AnalysisEntry :=
  if delta > 0 then
    if delta > 21 then
      [⟨"clinched", playerA ++ " a déjà gagné ! Même un 0-21 au " ++ sportLabel ++
        " ne suffirait pas."⟩]
    else if delta = 21 then
      [⟨"scenario", playerB ++ " doit faire 21-0 au " ++ sportLabel ++
        " pour aller au Gummiarm"⟩]
    else
      let bMinWinScore : Int := 21 - delta - 1
      let gummiScore : Int := 21 - delta
      [⟨"scenario", "🏆 " ++ playerB ++ " gagne si " ++ sportLabel ++ " ≥ 21-" ++
         toString bMinWinScore⟩,
       ⟨"scenario", "🏆 " ++ playerA ++ " gagne si " ++ sportLabel ++ " ≤ 21-" ++
         toString (bMinWinScore + 2) ++ " ou " ++ playerA ++ " gagne le set"⟩] ++
      (if delta ≤ 21 then
        [⟨"gummiarm_scenario", "⚡ Gummiarm si " ++ sportLabel ++ " = 21-" ++
          toString gummiScore⟩]
       else [])
  else if delta < 0 then
    let absDelta : Int := delta.natAbs
    if absDelta > 21 then
      [⟨"clinched", playerB ++ " a déjà gagné ! Même un 21-0 au " ++ sportLabel ++
        " ne suffirait pas."⟩]
    else
      let aMinWinScore : Int := 21 - absDelta - 1
      let gummiScore : Int := 21 - absDelta
      [⟨"scenario", "🏆 " ++ playerA ++ " gagne si " ++ sportLabel ++ " ≥ 21-" ++
         toString aMinWinScore⟩,
       ⟨"scenario", "🏆 " ++ playerB ++ " gagne si " ++ sportLabel ++ " ≤ 21-" ++
         toString (aMinWinScore + 2) ++ " ou " ++ playerB ++ " gagne le set"⟩] ++
      (if absDelta ≤ 21 then
        [⟨"gummiarm_scenario", "⚡ Gummiarm si " ++ sportLabel ++ " = 21-" ++
          toString gummiScore⟩]
       else [])
  else
    [⟨"scenario", "Le gagnant du " ++ sportLabel ++ " remporte le match !"⟩,
     ⟨"gummiarm_scenario", "⚡ Gummiarm si égalité au " ++ sportLabel⟩]

/-- analyzeBeforeTennis (scoring.js lines 264-371): the entries it pushes,
in order.  The `scores` parameter of the source is unused there and is
omitted. -/
def analyzeBeforeTennis (playerA playerB : String) (delta : Int) (sportLabel : String) :
    List AnalysisEntry :=
  let header : List AnalysisEntry :=
    [⟨"header", "📊 Analyse " ++ sportLabel ++ " :"⟩]
  let aGainNeededToSkipTennis : Int := 22 - delta
  let bGainNeededToSkipTennis : Int := -22 - delta
  if delta ≥ 0 then
    let skipA : List AnalysisEntry :=
      if aGainNeededToSkipTennis ≤ 21 then
        ((calculateScoreForGain aGainNeededToSkipTennis false).map
          (fun aScoreNeeded =>
            (⟨"skip_tennis", "🏆 " ++ playerA ++ " gagne SANS tennis si : " ++
              sportLabel ++ " en " ++ aScoreNeeded ++ " ou mieux"⟩ : AnalysisEntry))).toList
      else []
    let skipB : List AnalysisEntry :=
      if delta ≤ 21 then
        let bGainNeeded : Int := bGainNeededToSkipTennis.natAbs
        if bGainNeeded ≤ 21 then
          ((calculateScoreForGain bGainNeeded true).map
            (fun bScoreNeeded =>
              (⟨"skip_tennis", "🏆 " ++ playerB ++ " gagne SANS tennis si : " ++
                sportLabel ++ " en " ++ bScoreNeeded ++ " ou mieux"⟩ : AnalysisEntry))).toList
        else []
      else []
    let setup : List AnalysisEntry :=
      if delta > 0 then
        [⟨"tennis_setup", "🎾 " ++ playerA ++ " va au tennis avec l\x27avantage si perd de " ++
           toString (delta - 1) ++ " pts ou moins au " ++ sportLabel⟩,
         ⟨"tennis_setup", "🎾 " ++ playerB ++ " doit gagner +" ++ toString (delta + 1) ++
           " pts au " ++ sportLabel ++ " pour avoir l\x27avantage au tennis"⟩]
      else if delta = 0 then
        [⟨"tennis_setup", "🎾 Le gagnant du " ++ sportLabel ++ " aura l\x27avantage au tennis"⟩]
      else []
    header ++ skipA ++ skipB ++ setup
  else
    let absDelta : Int := delta.natAbs
    let bGainForClinch : Int := 22 - absDelta
    let skipB : List AnalysisEntry :=
      if bGainForClinch ≤ 21 then
        ((calculateScoreForGain bGainForClinch true).map
          (fun bScoreNeeded =>
            (⟨"skip_tennis", "🏆 " ++ playerB ++ " gagne SANS tennis si : " ++
              sportLabel ++ " en " ++ bScoreNeeded ++ " ou mieux"⟩ : AnalysisEntry))).toList
      else []
    let aGainForClinch : Int := 22 + absDelta
    let skipA : List AnalysisEntry :=
      if aGainForClinch ≤ 21 then
        ((calculateScoreForGain aGainForClinch false).map
          (fun aScoreNeeded =>
            (⟨"skip_tennis", "🏆 " ++ playerA ++ " gagne SANS tennis si : " ++
              sportLabel ++ " en " ++ aScoreNeeded ++ " ou mieux"⟩ : AnalysisEntry))).toList
      else []
    header ++ skipB ++ skipA ++
      [⟨"tennis_setup", "🎾 " ++ playerB ++ " va au tennis avec l\x27avantage si perd de " ++
         toString (absDelta - 1) ++ " pts ou moins au " ++ sportLabel⟩,
       ⟨"tennis_setup", "🎾 " ++ playerA ++ " doit gagner +" ++ toString (absDelta + 1) ++
         " pts au " ++ sportLabel ++ " pour avoir l\x27avantage au tennis"⟩]

/-- analyzeMultipleSportsRemaining (scoring.js lines 400-435): the entries
it pushes, in order.  A `null` score from calculateScoreForGain would be
interpolated by JavaScript as the text "null". -/
def analyzeMultipleSportsRemaining (playerA playerB : String) (delta : Int)
    (sportLabel : String) (remaining : Nat) : List AnalysisEntry :=
  let pointsAfterThis : Int := ((remaining - 1) * MAX_POINTS_PER_SET : Nat)
  let aGainToClinch : Int := pointsAfterThis - delta + 1
  let bGainToClinch : Int := pointsAfterThis + delta + 1
  [⟨"info", toString remaining ++ " sports restants (" ++
    toString (pointsAfterThis + 21) ++ " pts max)"⟩] ++
  (if aGainToClinch ≤ 21 then
    let score := (calculateScoreForGain aGainToClinch false).getD ("null")
    [⟨"clinch_possible", playerA ++ " peut gagner après " ++ sportLabel ++
      " avec un " ++ score ++ " ou mieux"⟩]
   else []) ++
  (if bGainToClinch ≤ 21 then
    let score := (calculateScoreForGain bGainToClinch true).getD ("null")
    [⟨"clinch_possible", playerB ++ " peut gagner après " ++ sportLabel ++
      " avec un " ++ score ++ " ou mieux"⟩]
   else []) ++
  (if aGainToClinch > 21 ∧ bGainToClinch > 21 then
    [⟨"info", "Aucun ne peut gagner après " ++ sportLabel ++
      " seul, le match continue"⟩]
   else [])

/-- The leader/tied entry pushed first by generateInProgressAnalysis
(scoring.js lines 120-136). -/
def leaderEntriesOf (p : Sport → Option (Nat × Nat))
    (playerA playerB : String) : List AnalysisEntry :=
  if currentDeltaOf p > 0 then
    [⟨"leader", playerA ++ " mène de " ++ toString (currentDeltaOf p) ++ " points (" ++
      toString (totalAOf p) ++ "-" ++ toString (totalBOf p) ++ ")"⟩]
  else if currentDeltaOf p < 0 then
    [⟨"leader", playerB ++ " mène de " ++ toString (currentDeltaOf p).natAbs ++ " points (" ++
      toString (totalBOf p) ++ "-" ++ toString (totalAOf p) ++ ")"⟩]
  else
    [⟨"tied", "Égalité parfaite " ++ toString (totalAOf p) ++ "-" ++ toString (totalBOf p)⟩]

/-- generateInProgressAnalysis, continued: the branch dispatch of scoring.js
lines 164-180, applied to the first unplayed sport (`findIndex`, line 139). -/
def generateInProgressAnalysis (p : Sport → Option (Nat × Nat))
    (playerA playerB : String) : List AnalysisEntry :=
  match SPORTS.find? (fun s => !(p s).isSome) with
  | none => leaderEntriesOf p playerA playerB
  | some nextSport =>
    let nextLabel := sportLabel nextSport
    leaderEntriesOf p playerA playerB ++
      (if sportsRemainingOf p = 1 then
        analyzeLastSport playerA playerB (currentDeltaOf p) nextLabel
       else if sportsRemainingOf p = 2 then
        analyzeBeforeTennis playerA playerB (currentDeltaOf p) nextLabel
       else
        analyzeMultipleSportsRemaining playerA playerB (currentDeltaOf p) nextLabel
          (sportsRemainingOf p))

/-- `result.status` as assigned in scoring.js lines 81-109. -/
def statusOf (p : Sport → Option (Nat × Nat)) : String :=
  if playedCountOf p = 4 then
    if currentDeltaOf p = 0 then "gummiarm" else "finished"
  else if (currentDeltaOf p).natAbs > maxRemainingPointsOf p then "finished"
  else "in_progress"

/-- `result.winner` as assigned in scoring.js lines 81-109. -/
def winnerOf (p : Sport → Option (Nat × Nat)) (playerA playerB : String) :
    Option String :=
  if playedCountOf p = 4 then
    if currentDeltaOf p = 0 then none
    else some (if currentDeltaOf p > 0 then playerA else playerB)
  else if (currentDeltaOf p).natAbs > maxRemainingPointsOf p then
    some (if currentDeltaOf p > 0 then playerA else playerB)
  else none

/-- `result.analysis` as pushed in scoring.js lines 81-109 (and, in the
in-progress branch, by generateInProgressAnalysis). -/
def analysisOf (p : Sport → Option (Nat × Nat)) (playerA playerB : String) :
    List AnalysisEntry :=
  if playedCountOf p = 4 then
    if currentDeltaOf p = 0 then
      [⟨"gummiarm", "Égalité parfaite " ++ toString (totalAOf p) ++ "-" ++
        toString (totalBOf p) ++ " ! Direction le Gummiarm 🎾"⟩]
    else
      let winner := if currentDeltaOf p > 0 then playerA else playerB
      let winnerTotal := max (totalAOf p) (totalBOf p)
      let loserTotal := min (totalAOf p) (totalBOf p)
      [⟨"winner", winner ++ " gagne " ++ toString winnerTotal ++ "-" ++
        toString loserTotal ++ " (+" ++ toString (currentDeltaOf p).natAbs ++ " pts)"⟩]
  else if (currentDeltaOf p).natAbs > maxRemainingPointsOf p then
    let winner := if currentDeltaOf p > 0 then playerA else playerB
    [⟨"winner", winner ++ " a déjà gagné ! Avance de " ++
      toString (currentDeltaOf p).natAbs ++ " pts, seulement " ++
      toString (maxRemainingPointsOf p) ++ " pts restants possibles."⟩]
  else generateInProgressAnalysis p playerA playerB

/-- analyzeMatch on already-parsed per-sport results: assembles the result
object of scoring.js lines 43-112. -/
def analyzeParsed (p : Sport → Option (Nat × Nat)) (playerA playerB : String) :
    MatchResult :=
  { playerA := playerA
    playerB := playerB
    sports := sportEntryOf p
    totalA := totalAOf p
    totalB := totalBOf p
    currentDelta := currentDeltaOf p
    sportsPlayed := playedCountOf p
    sportsRemaining := sportsRemainingOf p
    maxRemainingPoints := maxRemainingPointsOf p
    status := statusOf p
    winner := winnerOf p playerA playerB
    analysis := analysisOf p playerA playerB }

/-- analyzeMatch (scoring.js line 42): the optional name arguments model the
JavaScript default parameters `playerA = "Joueur A"`, `playerB = "Joueur B"`,
which fire exactly when the argument is `undefined`. -/
def analyzeMatch (scores : Scores) (playerA : Option String := none)
    (playerB : Option String := none) : MatchResult :=
  analyzeParsed (parsedOf scores) (playerA.getD ("Joueur A")) (playerB.getD ("Joueur B"))

/-! ## Claim-side definitions

These follow the wording of the specification / claims, for comparison with
the source-translated definitions above. -/

/-- Follows the claims' words: the sports whose score string parsed as
played, in fixed sport order. -/
def specPlayedSports (scores : Scores) : List Sport :=
  SPORTS.filter (fun s => (parseScore (scores.get s)).isSome)

/-- Follows the claims' words: the number of sports played. -/
def specPlayedCount (scores : Scores) : Nat :=
  (specPlayedSports scores).length

/-- Follows the claims' words: the sum of scoreA over exactly the played
sports. -/
def specTotalA (scores : Scores) : Nat :=
  ((specPlayedSports scores).map
    (fun s => ((parseScore (scores.get s)).map Prod.fst).getD 0)).sum

/-- Follows the claims' words: the sum of scoreB over exactly the played
sports. -/
def specTotalB (scores : Scores) : Nat :=
  ((specPlayedSports scores).map
    (fun s => ((parseScore (scores.get s)).map Prod.snd).getD 0)).sum

/-- Follows claim C1's words: the status assignment rules in priority
order. -/
def specStatus (scores : Scores) : String :=
  if specPlayedCount scores = 4 then
    if specTotalA scores = specTotalB scores then "gummiarm" else "finished"
  else if ((specTotalA scores : Int) - (specTotalB scores : Int)).natAbs >
      (4 - specPlayedCount scores) * 21 then "finished"
  else "in_progress"

/-- Follows claim C1's words: the player with the greater total (the
currently leading player). -/
def specLeadingPlayer (scores : Scores) (playerA playerB : String) : String :=
  if specTotalA scores > specTotalB scores then playerA else playerB

/-! ## Bridge lemmas between the loop-accumulated quantities and the
declarative claim-side quantities. -/

theorem playedCount_bridge (scores : Scores) :
    playedCountOf (parsedOf scores) = specPlayedCount scores := by
  cases h1 : parseScore (scores.get Sport.tabletennis) <;>
  cases h2 : parseScore (scores.get Sport.badminton) <;>
  cases h3 : parseScore (scores.get Sport.squash) <;>
  cases h4 : parseScore (scores.get Sport.tennis) <;>
    simp [playedCountOf, specPlayedCount, specPlayedSports, parsedOf, SPORTS,
      h1, h2, h3, h4]

theorem totalA_bridge (scores : Scores) :
    totalAOf (parsedOf scores) = specTotalA scores := by
  cases h1 : parseScore (scores.get Sport.tabletennis) <;>
  cases h2 : parseScore (scores.get Sport.badminton) <;>
  cases h3 : parseScore (scores.get Sport.squash) <;>
  cases h4 : parseScore (scores.get Sport.tennis) <;>
    simp [totalAOf, specTotalA, specPlayedSports, parsedOf, SPORTS,
      h1, h2, h3, h4] <;>
    omega

theorem totalB_bridge (scores : Scores) :
    totalBOf (parsedOf scores) = specTotalB scores := by
  cases h1 : parseScore (scores.get Sport.tabletennis) <;>
  cases h2 : parseScore (scores.get Sport.badminton) <;>
  cases h3 : parseScore (scores.get Sport.squash) <;>
  cases h4 : parseScore (scores.get Sport.tennis) <;>
    simp [totalBOf, specTotalB, specPlayedSports, parsedOf, SPORTS,
      h1, h2, h3, h4] <;>
    omega

theorem playedCountOf_le_four (p : Sport → Option (Nat × Nat)) :
    playedCountOf p ≤ 4 := by
  simp only [playedCountOf, SPORTS, List.foldl]
  split_ifs <;> omega

/-- Claim C1: for every input, analyzeMatch assigns status by the priority
rules: all four played and equal totals gives gummiarm; all four played and
unequal totals gives finished with the greater-total player as winner; fewer
than four played with the absolute margin exceeding (4 - sportsPlayed) * 21
gives finished with the leading player as winner; every remaining case is
in_progress. -/
theorem claim_C1_status_classifier (scores : Scores) (pa pb : String) :
    (analyzeMatch scores (some pa) (some pb)).status = specStatus scores ∧
    (specPlayedCount scores = 4 → specTotalA scores ≠ specTotalB scores →
      (analyzeMatch scores (some pa) (some pb)).winner =
        some (specLeadingPlayer scores pa pb)) ∧
    (specPlayedCount scores ≠ 4 →
      ((specTotalA scores : Int) - (specTotalB scores : Int)).natAbs >
        (4 - specPlayedCount scores) * 21 →
      (analyzeMatch scores (some pa) (some pb)).winner =
        some (specLeadingPlayer scores pa pb)) := by
  have hA := totalA_bridge scores
  have hB := totalB_bridge scores
  have hC := playedCount_bridge scores
  have hδ : currentDeltaOf (parsedOf scores) =
      (specTotalA scores : Int) - (specTotalB scores : Int) := by
    unfold currentDeltaOf; rw [hA, hB]
  have hmax : maxRemainingPointsOf (parsedOf scores) =
      (4 - specPlayedCount scores) * 21 := by
    unfold maxRemainingPointsOf sportsRemainingOf MAX_POINTS_PER_SET; rw [hC]
  refine ⟨?_, ?_, ?_⟩
  · show statusOf (parsedOf scores) = specStatus scores
    unfold statusOf specStatus
    rw [hδ, hC, hmax]
    split_ifs <;> first | rfl | omega
  · intro h4 hne
    show winnerOf (parsedOf scores) pa pb = some (specLeadingPlayer scores pa pb)
    unfold winnerOf specLeadingPlayer
    rw [hδ, hC, hmax]
    split_ifs <;> first | rfl | omega
  · intro h4 hgtmax
    show winnerOf (parsedOf scores) pa pb = some (specLeadingPlayer scores pa pb)
    unfold winnerOf specLeadingPlayer
    rw [hδ, hC, hmax]
    split_ifs <;> first | rfl | omega

/-- Closed witness for claim C1: a completed 80-80 match is classified
gummiarm, and an early 99-point lead after two sports is a finish with the
leader as winner. -/
theorem claim_C1_witness :
    (analyzeMatch ⟨some ("21-19"), some ("19-21"), some ("20-20"), some ("20-20")⟩
      (some ("Ana")) (some ("Bob"))).status = "gummiarm" ∧
    specPlayedCount ⟨some ("100-1"), some ("1-2"), none, none⟩ ≠ 4 ∧
    ((specTotalA ⟨some ("100-1"), some ("1-2"), none, none⟩ : Int) -
      (specTotalB ⟨some ("100-1"), some ("1-2"), none, none⟩ : Int)).natAbs >
      (4 - specPlayedCount ⟨some ("100-1"), some ("1-2"), none, none⟩) * 21 ∧
    (analyzeMatch ⟨some ("100-1"), some ("1-2"), none, none⟩
      (some ("Ana")) (some ("Bob"))).winner = some ("Ana") := by
  refine ⟨?_, by decide, by decide, ?_⟩
  · have h := (claim_C1_status_classifier
      ⟨some ("21-19"), some ("19-21"), some ("20-20"), some ("20-20")⟩
      ("Ana") ("Bob")).1
    rw [h]; decide
  · have h := (claim_C1_status_classifier
      ⟨some ("100-1"), some ("1-2"), none, none⟩ ("Ana") ("Bob")).2.2
      (by decide) (by decide)
    rw [h]; decide

/-- Claim C2: for every input, totalA and totalB are the sums of the parsed
scores over exactly the played sports, sportsPlayed + sportsRemaining is 4,
and maxRemainingPoints is sportsRemaining times 21. -/
theorem claim_C2_aggregate_invariants (scores : Scores) (pa pb : String) :
    (analyzeMatch scores (some pa) (some pb)).totalA = specTotalA scores ∧
    (analyzeMatch scores (some pa) (some pb)).totalB = specTotalB scores ∧
    (analyzeMatch scores (some pa) (some pb)).sportsPlayed +
      (analyzeMatch scores (some pa) (some pb)).sportsRemaining = 4 ∧
    (analyzeMatch scores (some pa) (some pb)).maxRemainingPoints =
      (analyzeMatch scores (some pa) (some pb)).sportsRemaining * 21 := by
  refine ⟨totalA_bridge scores, totalB_bridge scores, ?_, rfl⟩
  have h := playedCountOf_le_four (parsedOf scores)
  show playedCountOf (parsedOf scores) + (4 - playedCountOf (parsedOf scores)) = 4
  omega

/-- Follows claim C3's words: the accepted form "<digits>-<digits>" with
optional whitespace only around the separator. -/
def specScoreForm (l : List Char) : Bool :=
  let d1 := l.takeWhile Char.isDigit
  let r1 := (l.dropWhile Char.isDigit).dropWhile isJSWhitespace
  match r1 with
  | '-' :: r2 =>
    let r3 := r2.dropWhile isJSWhitespace
    let d2 := r3.takeWhile Char.isDigit
    !d1.isEmpty && !d2.isEmpty && (r3.dropWhile Char.isDigit).isEmpty
  | _ => false

/-- Counterexample to claim C3 as stated: the string "2 1-15" does not match
the form digits-hyphen-digits with whitespace only around the separator, yet
parseScore returns a pair rather than null, because scoring.js line 28
removes whitespace anywhere in the string before matching. -/
theorem claim_C3_counterexample :
    specScoreForm (String.data ("2 1-15")) = false ∧
    parseScore (some ("2 1-15")) = some (21, 15) := by
  decide

/-- Follows the amended claim C3's words: remove every whitespace character
anywhere in the string, then require the remainder to be a nonempty digit
run, a hyphen and a nonempty digit run. -/
def parseScoreSpecAmended (s : String) : Option (Nat × Nat) :=
  matchScorePattern (s.data.filter (fun c => !isJSWhitespace c))

theorem filter_nonws_eq_nil_of_trim_nil (l : List Char)
    (h : trimChars l = []) :
    l.filter (fun c => !isJSWhitespace c) = [] := by
  unfold trimChars at h
  have h1 : (l.dropWhile isJSWhitespace).reverse.dropWhile isJSWhitespace = [] := by
    rw [← List.reverse_eq_nil_iff] at h
    simpa using h
  have hall : ∀ c ∈ l, isJSWhitespace c = true := by
    intro c hc
    rw [← List.takeWhile_append_dropWhile (p := isJSWhitespace) (l := l)] at hc
    rcases List.mem_append.mp hc with hc1 | hc2
    · exact List.mem_takeWhile_imp hc1
    · have : c ∈ (l.dropWhile isJSWhitespace).reverse := List.mem_reverse.mpr hc2
      exact List.dropWhile_eq_nil_iff.mp h1 c this
  rw [List.filter_eq_nil_iff]
  intro c hc
  simp [hall c hc]

/-- Amended claim C3: parseScore never raises (it is a total function of its
input), returns null on an absent input, and on a present string behaves
exactly as: strip every whitespace character anywhere, then return the pair
of digit-run values if the remainder matches digits-hyphen-digits, null
otherwise.  (The early returns of lines 25-27 for the empty, all-blank and
lone-hyphen strings are subsumed by that description.) -/
theorem claim_C3_parse_leniency (s : String) :
    parseScore none = none ∧ parseScore (some s) = parseScoreSpecAmended s := by
  refine ⟨rfl, ?_⟩
  unfold parseScore parseScoreSpecAmended
  dsimp only
  by_cases hcond : (s.data.isEmpty || (trimChars s.data).isEmpty || s.data == ['-']) = true
  · rw [if_pos hcond]
    symm
    simp only [Bool.or_eq_true, List.isEmpty_iff, beq_iff_eq] at hcond
    rcases hcond with (h | h) | h
    · rw [h]; rfl
    · rw [filter_nonws_eq_nil_of_trim_nil s.data h]; rfl
    · rw [h]; decide
  · rw [if_neg hcond]

/-- Claim C4: for every input — malformed strings and per-set values above
21 included — analyzeMatch returns a well-formed MatchResult (it is a total
function in this embedding, so it never raises), its status is one of the
three contract values, and a tied set such as "21-21" in table tennis is
simply counted into both totals with a per-sport margin of zero. -/
theorem claim_C4_engine_safety (scores : Scores) (pa pb : String) :
    ((analyzeMatch scores (some pa) (some pb)).status = "in_progress" ∨
     (analyzeMatch scores (some pa) (some pb)).status = "finished" ∨
     (analyzeMatch scores (some pa) (some pb)).status = "gummiarm") ∧
    (scores.tabletennis = some ("21-21") →
      ((analyzeMatch scores (some pa) (some pb)).sports Sport.tabletennis).played = true ∧
      ((analyzeMatch scores (some pa) (some pb)).sports Sport.tabletennis).delta = 0 ∧
      (analyzeMatch scores (some pa) (some pb)).totalA =
        21 + (((parseScore scores.badminton).map Prod.fst).getD 0 +
          (((parseScore scores.squash).map Prod.fst).getD 0 +
            ((parseScore scores.tennis).map Prod.fst).getD 0)) ∧
      (analyzeMatch scores (some pa) (some pb)).totalB =
        21 + (((parseScore scores.badminton).map Prod.snd).getD 0 +
          (((parseScore scores.squash).map Prod.snd).getD 0 +
            ((parseScore scores.tennis).map Prod.snd).getD 0))) := by
  constructor
  · show statusOf (parsedOf scores) = "in_progress" ∨
      statusOf (parsedOf scores) = "finished" ∨
      statusOf (parsedOf scores) = "gummiarm"
    unfold statusOf
    split_ifs <;> simp
  · intro htt
    have hval : parseScore scores.tabletennis = some (21, 21) := by
      rw [htt]; decide
    have hp : parsedOf scores Sport.tabletennis = some (21, 21) := by
      show parseScore scores.tabletennis = some (21, 21)
      exact hval
    refine ⟨?_, ?_, ?_, ?_⟩
    · show (sportEntryOf (parsedOf scores) Sport.tabletennis).played = true
      simp [sportEntryOf, hp]
    · show (sportEntryOf (parsedOf scores) Sport.tabletennis).delta = 0
      simp [sportEntryOf, hp]
    · show totalAOf (parsedOf scores) = _
      simp [totalAOf, SPORTS, List.foldl, parsedOf, Scores.get, hval]
      omega
    · show totalBOf (parsedOf scores) = _
      simp [totalBOf, SPORTS, List.foldl, parsedOf, Scores.get, hval]
      omega

/-- Closed witness for claim C4: table tennis "21-21" together with
badminton "5-3" gives totals 26-24 and a zero table-tennis margin. -/
theorem claim_C4_witness :
    ((analyzeMatch ⟨some ("21-21"), some ("5-3"), none, none⟩
      (some ("Ana")) (some ("Bob"))).sports Sport.tabletennis).delta = 0 ∧
    (analyzeMatch ⟨some ("21-21"), some ("5-3"), none, none⟩
      (some ("Ana")) (some ("Bob"))).totalA = 26 ∧
    (analyzeMatch ⟨some ("21-21"), some ("5-3"), none, none⟩
      (some ("Ana")) (some ("Bob"))).totalB = 24 := by
  have h := (claim_C4_engine_safety ⟨some ("21-21"), some ("5-3"), none, none⟩
    ("Ana") ("Bob")).2 (by rfl)
  refine ⟨h.2.1, ?_, ?_⟩
  · rw [h.2.2.1]; decide
  · rw [h.2.2.2]; decide

/-! ## Infrastructure lemmas for the in-progress analysis branch. -/

theorem statusOf_in_progress_iff (p : Sport → Option (Nat × Nat)) :
    statusOf p = "in_progress" ↔
      (¬ playedCountOf p = 4 ∧
        ¬ (currentDeltaOf p).natAbs > maxRemainingPointsOf p) := by
  unfold statusOf
  by_cases h1 : playedCountOf p = 4
  · rw [if_pos h1]
    by_cases h2 : currentDeltaOf p = 0
    · rw [if_pos h2]
      exact ⟨fun h => absurd h (by decide), fun h => absurd h1 h.1⟩
    · rw [if_neg h2]
      exact ⟨fun h => absurd h (by decide), fun h => absurd h1 h.1⟩
  · rw [if_neg h1]
    by_cases h3 : (currentDeltaOf p).natAbs > maxRemainingPointsOf p
    · rw [if_pos h3]
      exact ⟨fun h => absurd h (by decide), fun h => absurd h3 h.2⟩
    · rw [if_neg h3]
      exact ⟨fun _ => ⟨h1, h3⟩, fun _ => rfl⟩

theorem analysisOf_in_progress (p : Sport → Option (Nat × Nat)) (pa pb : String)
    (h1 : ¬ playedCountOf p = 4)
    (h2 : ¬ (currentDeltaOf p).natAbs > maxRemainingPointsOf p) :
    analysisOf p pa pb = generateInProgressAnalysis p pa pb := by
  unfold analysisOf
  rw [if_neg h1, if_neg h2]

theorem exists_unplayed_of_count_ne_four (p : Sport → Option (Nat × Nat))
    (h : ¬ playedCountOf p = 4) :
    ∃ s₀, SPORTS.find? (fun s => !(p s).isSome) = some s₀ := by
  cases hf : SPORTS.find? (fun s => !(p s).isSome) with
  | some s => exact ⟨s, rfl⟩
  | none =>
    exfalso
    have hall := List.find?_eq_none.mp hf
    have h1 : ¬ p Sport.tabletennis = none := by
      simpa using hall Sport.tabletennis (by decide)
    have h2 : ¬ p Sport.badminton = none := by
      simpa using hall Sport.badminton (by decide)
    have h3 : ¬ p Sport.squash = none := by
      simpa using hall Sport.squash (by decide)
    have h4 : ¬ p Sport.tennis = none := by
      simpa using hall Sport.tennis (by decide)
    apply h
    simp [playedCountOf, SPORTS, List.foldl, Option.isSome_iff_ne_none,
      h1, h2, h3, h4]

theorem generate_eq_of_find (p : Sport → Option (Nat × Nat)) (pa pb : String)
    (s₀ : Sport) (hf : SPORTS.find? (fun s => !(p s).isSome) = some s₀) :
    generateInProgressAnalysis p pa pb =
      leaderEntriesOf p pa pb ++
        (if sportsRemainingOf p = 1 then
          analyzeLastSport pa pb (currentDeltaOf p) (sportLabel s₀)
         else if sportsRemainingOf p = 2 then
          analyzeBeforeTennis pa pb (currentDeltaOf p) (sportLabel s₀)
         else
          analyzeMultipleSportsRemaining pa pb (currentDeltaOf p) (sportLabel s₀)
            (sportsRemainingOf p)) := by
  unfold generateInProgressAnalysis
  rw [hf]

theorem leaderEntries_shape (p : Sport → Option (Nat × Nat)) (pa pb : String) :
    ∃ e, leaderEntriesOf p pa pb = [e] ∧ (e.type = "leader" ∨ e.type = "tied") := by
  unfold leaderEntriesOf
  by_cases h1 : currentDeltaOf p > 0
  · rw [if_pos h1]; exact ⟨_, rfl, Or.inl rfl⟩
  · rw [if_neg h1]
    by_cases h2 : currentDeltaOf p < 0
    · rw [if_pos h2]; exact ⟨_, rfl, Or.inl rfl⟩
    · rw [if_neg h2]; exact ⟨_, rfl, Or.inr rfl⟩

/-! ## Projection lemmas for analyzeMatch results. -/

theorem analyzeMatch_status (scores : Scores) (pa pb : Option String) :
    (analyzeMatch scores pa pb).status = statusOf (parsedOf scores) := rfl

theorem analyzeMatch_analysis (scores : Scores) (pa pb : Option String) :
    (analyzeMatch scores pa pb).analysis =
      analysisOf (parsedOf scores) (pa.getD ("Joueur A")) (pb.getD ("Joueur B")) := rfl

theorem analyzeMatch_currentDelta (scores : Scores) (pa pb : Option String) :
    (analyzeMatch scores pa pb).currentDelta = currentDeltaOf (parsedOf scores) := rfl

theorem analyzeMatch_sportsRemaining (scores : Scores) (pa pb : Option String) :
    (analyzeMatch scores pa pb).sportsRemaining = sportsRemainingOf (parsedOf scores) := rfl

/-- The three entries claim C5 requires of a last-sport analysis with margin
strictly between 0 and 21 in absolute value: the trailing player wins at
21 to at most (21 - d - 1); the leading player wins the set or loses by at
most d - 1 (the message renders the bound as the opponent reaching at most
21 - d + 1 = (21 - d - 1) + 2); gummiarm at exactly 21 : (21 - d). -/
def lastSportEntriesPresent (r : MatchResult) (trailing leading : String)
    (d : Nat) (lbl : String) : Prop :=
  (⟨"scenario", "🏆 " ++ trailing ++ " gagne si " ++ lbl ++ " ≥ 21-" ++
    toString ((21 : Int) - (d : Int) - 1)⟩ : AnalysisEntry) ∈ r.analysis ∧
  (⟨"scenario", "🏆 " ++ leading ++ " gagne si " ++ lbl ++ " ≤ 21-" ++
    toString ((21 : Int) - (d : Int) - 1 + 2) ++ " ou " ++ leading ++
    " gagne le set"⟩ : AnalysisEntry) ∈ r.analysis ∧
  (⟨"gummiarm_scenario", "⚡ Gummiarm si " ++ lbl ++ " = 21-" ++
    toString ((21 : Int) - (d : Int))⟩ : AnalysisEntry) ∈ r.analysis

/-- Claim C5: for every in-progress input with exactly one sport remaining
and 0 < |currentDelta| < 21, the analysis contains the trailing player's
winning scenario at 21 to at most (21 - |delta| - 1), the leading player's
keep scenario, and the gummiarm scenario at exactly 21 : (21 - |delta|). -/
theorem claim_C5_last_sport_scenarios (scores : Scores) (pa pb : String)
    (h1 : (analyzeMatch scores (some pa) (some pb)).status = "in_progress")
    (h2 : (analyzeMatch scores (some pa) (some pb)).sportsRemaining = 1)
    (h3 : 0 < (analyzeMatch scores (some pa) (some pb)).currentDelta.natAbs)
    (h4 : (analyzeMatch scores (some pa) (some pb)).currentDelta.natAbs < 21) :
    ∃ lbl, lastSportEntriesPresent (analyzeMatch scores (some pa) (some pb))
      (if 0 < (analyzeMatch scores (some pa) (some pb)).currentDelta then pb else pa)
      (if 0 < (analyzeMatch scores (some pa) (some pb)).currentDelta then pa else pb)
      (analyzeMatch scores (some pa) (some pb)).currentDelta.natAbs lbl := by
  rw [analyzeMatch_status] at h1
  rw [analyzeMatch_sportsRemaining] at h2
  rw [analyzeMatch_currentDelta] at h3 h4
  have hc := (statusOf_in_progress_iff (parsedOf scores)).mp h1
  obtain ⟨s₀, hf⟩ := exists_unplayed_of_count_ne_four (parsedOf scores) hc.1
  have hana : (analyzeMatch scores (some pa) (some pb)).analysis =
      leaderEntriesOf (parsedOf scores) pa pb ++
        analyzeLastSport pa pb (currentDeltaOf (parsedOf scores)) (sportLabel s₀) := by
    rw [analyzeMatch_analysis, Option.getD_some, Option.getD_some,
      analysisOf_in_progress (parsedOf scores) pa pb hc.1 hc.2,
      generate_eq_of_find (parsedOf scores) pa pb s₀ hf, if_pos h2]
  refine ⟨sportLabel s₀, ?_⟩
  unfold lastSportEntriesPresent
  simp only [analyzeMatch_currentDelta]
  rw [hana]
  rcases Int.lt_trichotomy (currentDeltaOf (parsedOf scores)) 0 with hneg | hzero | hpos
  · have hnpos : ¬ (0 < currentDeltaOf (parsedOf scores)) := by omega
    rw [if_neg hnpos, if_neg hnpos]
    have hlist : analyzeLastSport pa pb (currentDeltaOf (parsedOf scores)) (sportLabel s₀) =
        [⟨"scenario", "🏆 " ++ pa ++ " gagne si " ++ sportLabel s₀ ++ " ≥ 21-" ++
           toString ((21 : Int) - ((currentDeltaOf (parsedOf scores)).natAbs : Int) - 1)⟩,
         ⟨"scenario", "🏆 " ++ pb ++ " gagne si " ++ sportLabel s₀ ++ " ≤ 21-" ++
           toString ((21 : Int) - ((currentDeltaOf (parsedOf scores)).natAbs : Int) - 1 + 2) ++
           " ou " ++ pb ++ " gagne le set"⟩,
         ⟨"gummiarm_scenario", "⚡ Gummiarm si " ++ sportLabel s₀ ++ " = 21-" ++
           toString ((21 : Int) - ((currentDeltaOf (parsedOf scores)).natAbs : Int))⟩] := by
      unfold analyzeLastSport
      rw [if_neg (show ¬ (currentDeltaOf (parsedOf scores) > 0) by omega),
        if_pos hneg,
        if_neg (show ¬ (((currentDeltaOf (parsedOf scores)).natAbs : Int) > 21) by omega)]
      dsimp only
      rw [if_pos (show ((currentDeltaOf (parsedOf scores)).natAbs : Int) ≤ 21 by omega)]
      rfl
    rw [hlist]
    refine ⟨?_, ?_, ?_⟩ <;> simp
  · exfalso; rw [hzero] at h3; simp at h3
  · rw [if_pos hpos, if_pos hpos]
    have hcast : (((currentDeltaOf (parsedOf scores)).natAbs : Nat) : Int) =
        currentDeltaOf (parsedOf scores) := Int.natAbs_of_nonneg (le_of_lt hpos)
    rw [hcast]
    have hlist : analyzeLastSport pa pb (currentDeltaOf (parsedOf scores)) (sportLabel s₀) =
        [⟨"scenario", "🏆 " ++ pb ++ " gagne si " ++ sportLabel s₀ ++ " ≥ 21-" ++
           toString ((21 : Int) - currentDeltaOf (parsedOf scores) - 1)⟩,
         ⟨"scenario", "🏆 " ++ pa ++ " gagne si " ++ sportLabel s₀ ++ " ≤ 21-" ++
           toString ((21 : Int) - currentDeltaOf (parsedOf scores) - 1 + 2) ++
           " ou " ++ pa ++ " gagne le set"⟩,
         ⟨"gummiarm_scenario", "⚡ Gummiarm si " ++ sportLabel s₀ ++ " = 21-" ++
           toString ((21 : Int) - currentDeltaOf (parsedOf scores))⟩] := by
      unfold analyzeLastSport
      rw [if_pos hpos,
        if_neg (show ¬ (currentDeltaOf (parsedOf scores) > 21) by omega),
        if_neg (show ¬ (currentDeltaOf (parsedOf scores) = 21) by omega)]
      dsimp only
      rw [if_pos (show currentDeltaOf (parsedOf scores) ≤ 21 by omega)]
      rfl
    rw [hlist]
    refine ⟨?_, ?_, ?_⟩ <;> simp

/-- Closed witness for claim C5, on the spec's own instance: table tennis,
badminton and squash all "21-15" (totals 63-45, delta 18, tennis left).  The
status is in_progress, player B's winning scenario reads "≥ 21-2" and the
gummiarm scenario reads exactly "21-3". -/
theorem claim_C5_witness :
    (analyzeMatch ⟨some ("21-15"), some ("21-15"), some ("21-15"), none⟩
      (some ("Joueur A")) (some ("Joueur B"))).status = "in_progress" ∧
    (analyzeMatch ⟨some ("21-15"), some ("21-15"), some ("21-15"), none⟩
      (some ("Joueur A")) (some ("Joueur B"))).sportsRemaining = 1 ∧
    (analyzeMatch ⟨some ("21-15"), some ("21-15"), some ("21-15"), none⟩
      (some ("Joueur A")) (some ("Joueur B"))).currentDelta = 18 ∧
    (⟨"scenario", "🏆 Joueur B gagne si Tennis ≥ 21-2"⟩ : AnalysisEntry) ∈
      (analyzeMatch ⟨some ("21-15"), some ("21-15"), some ("21-15"), none⟩
        (some ("Joueur A")) (some ("Joueur B"))).analysis ∧
    (⟨"gummiarm_scenario", "⚡ Gummiarm si Tennis = 21-3"⟩ : AnalysisEntry) ∈
      (analyzeMatch ⟨some ("21-15"), some ("21-15"), some ("21-15"), none⟩
        (some ("Joueur A")) (some ("Joueur B"))).analysis ∧
    (∃ lbl, lastSportEntriesPresent
      (analyzeMatch ⟨some ("21-15"), some ("21-15"), some ("21-15"), none⟩
        (some ("Joueur A")) (some ("Joueur B")))
      ("Joueur B") ("Joueur A") 18 lbl) := by
  refine ⟨by decide, by decide, by decide, by decide, by decide, ?_⟩
  have h := claim_C5_last_sport_scenarios
    ⟨some ("21-15"), some ("21-15"), some ("21-15"), none⟩
    ("Joueur A") ("Joueur B") (by decide) (by decide) (by decide) (by decide)
  simpa using h

/-- Claim C6 is a code bug: when player B leads by exactly 21 entering the
last sport, scoring.js has no `absDelta === 21` case (unlike the mirrored
`delta === 21` case for player A, line 194), so instead of the single
"must win 21-0 to force the gummiarm" scenario it emits a nonsensical
"A gagne si Tennis ≥ 21--1" entry (a negative example score, which the
spec's own conventions exclude) plus two more entries.  This theorem
evaluates the engine on both orientations of the same 21-point lead and
exhibits the asymmetry. -/
theorem claim_C6_last_sport_21_lead_eval :
    (analyzeMatch ⟨some ("21-0"), some ("5-10"), some ("10-5"), none⟩
      (some ("Joueur A")) (some ("Joueur B"))).status = "in_progress" ∧
    (analyzeMatch ⟨some ("21-0"), some ("5-10"), some ("10-5"), none⟩
      (some ("Joueur A")) (some ("Joueur B"))).analysis =
      [⟨"leader", "Joueur A mène de 21 points (36-15)"⟩,
       ⟨"scenario", "Joueur B doit faire 21-0 au Tennis pour aller au Gummiarm"⟩] ∧
    (analyzeMatch ⟨some ("0-21"), some ("10-5"), some ("5-10"), none⟩
      (some ("Joueur A")) (some ("Joueur B"))).status = "in_progress" ∧
    (analyzeMatch ⟨some ("0-21"), some ("10-5"), some ("5-10"), none⟩
      (some ("Joueur A")) (some ("Joueur B"))).currentDelta = -21 ∧
    (analyzeMatch ⟨some ("0-21"), some ("10-5"), some ("5-10"), none⟩
      (some ("Joueur A")) (some ("Joueur B"))).analysis =
      [⟨"leader", "Joueur B mène de 21 points (36-15)"⟩,
       ⟨"scenario", "🏆 Joueur A gagne si Tennis ≥ 21--1"⟩,
       ⟨"scenario", "🏆 Joueur B gagne si Tennis ≤ 21-1 ou Joueur B gagne le set"⟩,
       ⟨"gummiarm_scenario", "⚡ Gummiarm si Tennis = 21-0"⟩] := by
  refine ⟨by decide, by decide, by decide, by decide, by decide⟩

theorem analyzeMatch_totalA (scores : Scores) (pa pb : Option String) :
    (analyzeMatch scores pa pb).totalA = totalAOf (parsedOf scores) := rfl

theorem analyzeMatch_totalB (scores : Scores) (pa pb : Option String) :
    (analyzeMatch scores pa pb).totalB = totalBOf (parsedOf scores) := rfl

theorem multiple_no_clinch (pa pb : String) (delta : Int) (lbl : String) (rem : Nat)
    (ha : (((rem - 1) * 21 : Nat) : Int) - delta + 1 > 21)
    (hb : (((rem - 1) * 21 : Nat) : Int) + delta + 1 > 21) :
    analyzeMultipleSportsRemaining pa pb delta lbl rem =
      [⟨"info", toString rem ++ " sports restants (" ++
        toString ((((rem - 1) * 21 : Nat) : Int) + 21) ++ " pts max)"⟩,
       ⟨"info", "Aucun ne peut gagner après " ++ lbl ++ " seul, le match continue"⟩] := by
  unfold analyzeMultipleSportsRemaining MAX_POINTS_PER_SET
  dsimp only
  split_ifs <;> first | rfl | (exfalso; omega)

/-- Claim C7: for every in-progress input with at least three sports
remaining where neither player's clinch gain (pointsAfterThis minus delta
plus one for A, plus delta plus one for B, with pointsAfterThis equal to
(remaining - 1) * 21) fits within a single 21-point sport, the analysis
carries the explicit "no one can win after the next sport alone" info entry
alongside the leading leader/tied entry. -/
theorem claim_C7_no_early_clinch (scores : Scores) (pa pb : String)
    (h1 : (analyzeMatch scores (some pa) (some pb)).status = "in_progress")
    (h2 : 3 ≤ (analyzeMatch scores (some pa) (some pb)).sportsRemaining)
    (h3 : ((((analyzeMatch scores (some pa) (some pb)).sportsRemaining - 1) * 21 : Nat) : Int) -
      (analyzeMatch scores (some pa) (some pb)).currentDelta + 1 > 21)
    (h4 : ((((analyzeMatch scores (some pa) (some pb)).sportsRemaining - 1) * 21 : Nat) : Int) +
      (analyzeMatch scores (some pa) (some pb)).currentDelta + 1 > 21) :
    ∃ lbl,
      (⟨"info", "Aucun ne peut gagner après " ++ lbl ++
        " seul, le match continue"⟩ : AnalysisEntry) ∈
        (analyzeMatch scores (some pa) (some pb)).analysis ∧
      ∃ e, (analyzeMatch scores (some pa) (some pb)).analysis.head? = some e ∧
        (e.type = "leader" ∨ e.type = "tied") := by
  rw [analyzeMatch_status] at h1
  rw [analyzeMatch_sportsRemaining] at h2
  rw [analyzeMatch_sportsRemaining, analyzeMatch_currentDelta] at h3 h4
  have hc := (statusOf_in_progress_iff (parsedOf scores)).mp h1
  obtain ⟨s₀, hf⟩ := exists_unplayed_of_count_ne_four (parsedOf scores) hc.1
  have hana : (analyzeMatch scores (some pa) (some pb)).analysis =
      leaderEntriesOf (parsedOf scores) pa pb ++
        analyzeMultipleSportsRemaining pa pb (currentDeltaOf (parsedOf scores))
          (sportLabel s₀) (sportsRemainingOf (parsedOf scores)) := by
    rw [analyzeMatch_analysis, Option.getD_some, Option.getD_some,
      analysisOf_in_progress (parsedOf scores) pa pb hc.1 hc.2,
      generate_eq_of_find (parsedOf scores) pa pb s₀ hf,
      if_neg (show ¬ sportsRemainingOf (parsedOf scores) = 1 by omega),
      if_neg (show ¬ sportsRemainingOf (parsedOf scores) = 2 by omega)]
  have hmult := multiple_no_clinch pa pb (currentDeltaOf (parsedOf scores))
    (sportLabel s₀) (sportsRemainingOf (parsedOf scores)) h3 h4
  obtain ⟨e, hle, hety⟩ := leaderEntries_shape (parsedOf scores) pa pb
  refine ⟨sportLabel s₀, ?_, e, ?_, hety⟩
  · rw [hana, hmult]
    simp
  · rw [hana, hle]
    rfl

/-- Closed witness for claim C7, on the spec's own instance: only table
tennis "21-0" is played (delta 21, three sports remaining, pointsAfterThis
42, required gain 22 for A and 64 for B, both above 21), so the explicit
"cannot be decided after the next sport alone" info entry appears together
with the leader entry. -/
theorem claim_C7_witness :
    (analyzeMatch ⟨some ("21-0"), none, none, none⟩
      (some ("Joueur A")) (some ("Joueur B"))).status = "in_progress" ∧
    (analyzeMatch ⟨some ("21-0"), none, none, none⟩
      (some ("Joueur A")) (some ("Joueur B"))).sportsRemaining = 3 ∧
    (analyzeMatch ⟨some ("21-0"), none, none, none⟩
      (some ("Joueur A")) (some ("Joueur B"))).currentDelta = 21 ∧
    (⟨"info", "Aucun ne peut gagner après Badminton seul, le match continue"⟩ :
      AnalysisEntry) ∈
      (analyzeMatch ⟨some ("21-0"), none, none, none⟩
        (some ("Joueur A")) (some ("Joueur B"))).analysis ∧
    (analyzeMatch ⟨some ("21-0"), none, none, none⟩
      (some ("Joueur A")) (some ("Joueur B"))).analysis.head? =
      some ⟨"leader", "Joueur A mène de 21 points (21-0)"⟩ ∧
    (∃ lbl,
      (⟨"info", "Aucun ne peut gagner après " ++ lbl ++
        " seul, le match continue"⟩ : AnalysisEntry) ∈
        (analyzeMatch ⟨some ("21-0"), none, none, none⟩
          (some ("Joueur A")) (some ("Joueur B"))).analysis ∧
      ∃ e, (analyzeMatch ⟨some ("21-0"), none, none, none⟩
        (some ("Joueur A")) (some ("Joueur B"))).analysis.head? = some e ∧
        (e.type = "leader" ∨ e.type = "tied")) := by
  refine ⟨by decide, by decide, by decide, by decide, by decide, ?_⟩
  exact claim_C7_no_early_clinch ⟨some ("21-0"), none, none, none⟩
    ("Joueur A") ("Joueur B") (by decide) (by decide) (by decide) (by decide)

/-- Counterexample to claim C8 as stated: with two sports remaining and a
zero margin (table tennis "10-10", badminton "7-7"), the before-tennis stage
emits its header entry in addition to the generic winner-of-this-sport
message, so the stage does not emit "only the generic message and no other
entry". -/
theorem claim_C8_counterexample :
    (analyzeMatch ⟨some ("10-10"), some ("7-7"), none, none⟩
      (some ("Joueur A")) (some ("Joueur B"))).status = "in_progress" ∧
    (analyzeMatch ⟨some ("10-10"), some ("7-7"), none, none⟩
      (some ("Joueur A")) (some ("Joueur B"))).sportsRemaining = 2 ∧
    (analyzeMatch ⟨some ("10-10"), some ("7-7"), none, none⟩
      (some ("Joueur A")) (some ("Joueur B"))).currentDelta = 0 ∧
    List.drop 1 (analyzeMatch ⟨some ("10-10"), some ("7-7"), none, none⟩
      (some ("Joueur A")) (some ("Joueur B"))).analysis ≠
      [⟨"tennis_setup", "🎾 Le gagnant du Squash aura l\x27avantage au tennis"⟩] ∧
    (⟨"header", "📊 Analyse Squash :"⟩ : AnalysisEntry) ∈
      (analyzeMatch ⟨some ("10-10"), some ("7-7"), none, none⟩
        (some ("Joueur A")) (some ("Joueur B"))).analysis := by
  refine ⟨by decide, by decide, by decide, by decide, by decide⟩

theorem beforeTennis_zero_delta (pa pb lbl : String) :
    analyzeBeforeTennis pa pb 0 lbl =
      [⟨"header", "📊 Analyse " ++ lbl ++ " :"⟩,
       ⟨"tennis_setup", "🎾 Le gagnant du " ++ lbl ++ " aura l\x27avantage au tennis"⟩] := by
  unfold analyzeBeforeTennis
  dsimp only
  split_ifs <;> first | rfl | (exfalso; omega)

/-- Amended claim C8: for every in-progress input with exactly two sports
remaining and a zero margin, the before-tennis stage emits exactly its
header entry followed by the generic winner-of-this-sport message — no
skip_tennis entry and no per-player tennis_setup entries — after the
tied entry of the leader stage. -/
theorem claim_C8_two_remaining_tied (scores : Scores) (pa pb : String)
    (h1 : (analyzeMatch scores (some pa) (some pb)).status = "in_progress")
    (h2 : (analyzeMatch scores (some pa) (some pb)).sportsRemaining = 2)
    (h3 : (analyzeMatch scores (some pa) (some pb)).currentDelta = 0) :
    ∃ lbl, (analyzeMatch scores (some pa) (some pb)).analysis =
      [⟨"tied", "Égalité parfaite " ++
         toString (analyzeMatch scores (some pa) (some pb)).totalA ++ "-" ++
         toString (analyzeMatch scores (some pa) (some pb)).totalB⟩,
       ⟨"header", "📊 Analyse " ++ lbl ++ " :"⟩,
       ⟨"tennis_setup", "🎾 Le gagnant du " ++ lbl ++ " aura l\x27avantage au tennis"⟩] := by
  rw [analyzeMatch_status] at h1
  rw [analyzeMatch_sportsRemaining] at h2
  rw [analyzeMatch_currentDelta] at h3
  have hc := (statusOf_in_progress_iff (parsedOf scores)).mp h1
  obtain ⟨s₀, hf⟩ := exists_unplayed_of_count_ne_four (parsedOf scores) hc.1
  have hld : leaderEntriesOf (parsedOf scores) pa pb =
      [⟨"tied", "Égalité parfaite " ++ toString (totalAOf (parsedOf scores)) ++ "-" ++
        toString (totalBOf (parsedOf scores))⟩] := by
    unfold leaderEntriesOf
    rw [if_neg (by omega), if_neg (by omega)]
  have hana : (analyzeMatch scores (some pa) (some pb)).analysis =
      leaderEntriesOf (parsedOf scores) pa pb ++
        analyzeBeforeTennis pa pb (currentDeltaOf (parsedOf scores)) (sportLabel s₀) := by
    rw [analyzeMatch_analysis, Option.getD_some, Option.getD_some,
      analysisOf_in_progress (parsedOf scores) pa pb hc.1 hc.2,
      generate_eq_of_find (parsedOf scores) pa pb s₀ hf,
      if_neg (show ¬ sportsRemainingOf (parsedOf scores) = 1 by omega),
      if_pos h2]
  refine ⟨sportLabel s₀, ?_⟩
  rw [analyzeMatch_totalA, analyzeMatch_totalB, hana, hld, h3,
    beforeTennis_zero_delta pa pb (sportLabel s₀)]
  rfl

/-- Closed witness for the amended claim C8: table tennis "10-10" and
badminton "7-7" yield the tied entry, the squash header and the generic
tennis-advantage message, and nothing else. -/
theorem claim_C8_witness :
    (analyzeMatch ⟨some ("10-10"), some ("7-7"), none, none⟩
      (some ("Ana")) (some ("Bob"))).status = "in_progress" ∧
    (analyzeMatch ⟨some ("10-10"), some ("7-7"), none, none⟩
      (some ("Ana")) (some ("Bob"))).sportsRemaining = 2 ∧
    (analyzeMatch ⟨some ("10-10"), some ("7-7"), none, none⟩
      (some ("Ana")) (some ("Bob"))).currentDelta = 0 ∧
    (∃ lbl, (analyzeMatch ⟨some ("10-10"), some ("7-7"), none, none⟩
      (some ("Ana")) (some ("Bob"))).analysis =
      [⟨"tied", "Égalité parfaite " ++
         toString (analyzeMatch ⟨some ("10-10"), some ("7-7"), none, none⟩
           (some ("Ana")) (some ("Bob"))).totalA ++ "-" ++
         toString (analyzeMatch ⟨some ("10-10"), some ("7-7"), none, none⟩
           (some ("Ana")) (some ("Bob"))).totalB⟩,
       ⟨"header", "📊 Analyse " ++ lbl ++ " :"⟩,
       ⟨"tennis_setup", "🎾 Le gagnant du " ++ lbl ++ " aura l\x27avantage au tennis"⟩]) := by
  refine ⟨by decide, by decide, by decide, ?_⟩
  exact claim_C8_two_remaining_tied ⟨some ("10-10"), some ("7-7"), none, none⟩
    ("Ana") ("Bob") (by decide) (by decide) (by decide)

/-- Counterexample to claim C9 as stated: JavaScript default parameters fire
only on `undefined`, so supplying empty strings as the two player names
yields a MatchResult whose playerA field is the empty string, not the
placeholder "Joueur A". -/
theorem claim_C9_counterexample :
    (analyzeMatch ⟨none, none, none, none⟩ (some ("")) (some (""))).playerA = "" ∧
    (analyzeMatch ⟨none, none, none, none⟩ (some ("")) (some (""))).playerB = "" ∧
    ¬ (analyzeMatch ⟨none, none, none, none⟩
      (some ("")) (some (""))).playerA = "Joueur A" ∧
    ¬ (analyzeMatch ⟨none, none, none, none⟩
      (some ("")) (some (""))).playerB = "Joueur B" := by
  refine ⟨rfl, rfl, by decide, by decide⟩

/-- Amended claim C9: the defaults "Joueur A" and "Joueur B" are used when
the name arguments are absent (undefined) — they then appear as the
playerA/playerB fields and as the only names a winner can carry — while an
explicitly supplied string, even the empty one, is used verbatim. -/
theorem claim_C9_default_names (scores : Scores) :
    (analyzeMatch scores none none).playerA = "Joueur A" ∧
    (analyzeMatch scores none none).playerB = "Joueur B" ∧
    ((analyzeMatch scores none none).winner = none ∨
     (analyzeMatch scores none none).winner = some ("Joueur A") ∨
     (analyzeMatch scores none none).winner = some ("Joueur B")) ∧
    (∀ s : String, (analyzeMatch scores (some s) none).playerA = s ∧
      (analyzeMatch scores none (some s)).playerB = s) := by
  refine ⟨rfl, rfl, ?_, fun s => ⟨rfl, rfl⟩⟩
  have hw : (analyzeMatch scores none none).winner =
      winnerOf (parsedOf scores) ("Joueur A") ("Joueur B") := rfl
  rw [hw]
  unfold winnerOf
  split_ifs <;> simp

theorem mem_option_toList_map {α : Type} (o : Option α) (f : α → AnalysisEntry)
    (e : AnalysisEntry) (he : e ∈ (o.map f).toList) : ∃ x, e = f x := by
  rcases o with _ | x
  · simp at he
  · simp at he
    exact ⟨x, he⟩

theorem beforeTennis_no_clinched (pa pb : String) (delta : Int) (lbl : String) :
    ∀ e ∈ analyzeBeforeTennis pa pb delta lbl, ¬ e.type = "clinched" := by
  intro e he
  unfold analyzeBeforeTennis at he
  dsimp only at he
  split_ifs at he <;>
    simp only [List.mem_append, List.mem_cons, List.mem_singleton, List.not_mem_nil,
      or_false, false_or, Option.mem_toList, Option.mem_def, Option.map_eq_some'] at he <;>
    (try casesm* _ ∨ _, Exists _, _ ∧ _) <;>
    subst_vars <;>
    simp

theorem multiple_no_clinched (pa pb : String) (delta : Int) (lbl : String) (rem : Nat) :
    ∀ e ∈ analyzeMultipleSportsRemaining pa pb delta lbl rem, ¬ e.type = "clinched" := by
  intro e he
  unfold analyzeMultipleSportsRemaining at he
  dsimp only at he
  split_ifs at he <;>
    simp only [List.mem_append, List.mem_cons, List.mem_singleton, List.not_mem_nil,
      or_false, false_or] at he <;>
    (try casesm* _ ∨ _) <;>
    subst_vars <;>
    simp

theorem lastSport_no_clinched (pa pb : String) (delta : Int) (lbl : String)
    (hle : delta.natAbs ≤ 21) :
    ∀ e ∈ analyzeLastSport pa pb delta lbl, ¬ e.type = "clinched" := by
  intro e he
  unfold analyzeLastSport at he
  dsimp only at he
  split_ifs at he <;>
    first
      | (exfalso; omega)
      | (simp only [List.mem_append, List.mem_cons, List.mem_singleton, List.not_mem_nil,
          or_false, false_or] at he
         (try casesm* _ ∨ _) <;> subst_vars <;> simp)

theorem leader_no_clinched (p : Sport → Option (Nat × Nat)) (pa pb : String) :
    ∀ e ∈ leaderEntriesOf p pa pb, ¬ e.type = "clinched" := by
  intro e he
  unfold leaderEntriesOf at he
  split_ifs at he <;> simp at he <;> subst_vars <;> simp

/-- Claim C10: no analysis sequence ever contains an entry of type
"clinched": the only branches that emit it need one sport remaining with an
absolute margin above 21, but the status classifier already turns every such
input into a finished match, so the scenario generator never sees one. -/
theorem claim_C10_clinched_unreachable (scores : Scores) (pa pb : String) :
    ∀ e ∈ (analyzeMatch scores (some pa) (some pb)).analysis,
      ¬ e.type = "clinched" := by
  intro e he
  rw [analyzeMatch_analysis, Option.getD_some, Option.getD_some] at he
  unfold analysisOf at he
  by_cases h1 : playedCountOf (parsedOf scores) = 4
  · rw [if_pos h1] at he
    by_cases h2 : currentDeltaOf (parsedOf scores) = 0
    · rw [if_pos h2] at he; simp at he; subst_vars; simp
    · rw [if_neg h2] at he; simp at he; subst_vars; simp
  · rw [if_neg h1] at he
    by_cases h3 : (currentDeltaOf (parsedOf scores)).natAbs >
        maxRemainingPointsOf (parsedOf scores)
    · rw [if_pos h3] at he; simp at he; subst_vars; simp
    · rw [if_neg h3] at he
      unfold generateInProgressAnalysis at he
      cases hfind : SPORTS.find? (fun s => !(parsedOf scores s).isSome) with
      | none =>
        rw [hfind] at he
        exact leader_no_clinched (parsedOf scores) pa pb e he
      | some s₀ =>
        rw [hfind] at he
        dsimp only at he
        rcases List.mem_append.mp he with he2 | he2
        · exact leader_no_clinched (parsedOf scores) pa pb e he2
        · have hmaxeq : maxRemainingPointsOf (parsedOf scores) =
            sportsRemainingOf (parsedOf scores) * 21 := rfl
          split_ifs at he2 with hr1 hr2
          · have hle : (currentDeltaOf (parsedOf scores)).natAbs ≤ 21 := by omega
            exact lastSport_no_clinched pa pb (currentDeltaOf (parsedOf scores))
              (sportLabel s₀) hle e he2
          · exact beforeTennis_no_clinched pa pb (currentDeltaOf (parsedOf scores))
              (sportLabel s₀) e he2
          · exact multiple_no_clinched pa pb (currentDeltaOf (parsedOf scores))
              (sportLabel s₀) (sportsRemainingOf (parsedOf scores)) e he2

/-- Closed witness for claim C10: a concrete in-progress lead of exactly 21
entering the last sport, the nearest configuration to the dead clinched
branch, still produces no clinched entry. -/
theorem claim_C10_witness :
    (⟨"leader", "Joueur A mène de 21 points (36-15)"⟩ : AnalysisEntry) ∈
      (analyzeMatch ⟨some ("21-0"), some ("5-10"), some ("10-5"), none⟩
        (some ("Joueur A")) (some ("Joueur B"))).analysis ∧
    ¬ (⟨"leader", "Joueur A mène de 21 points (36-15)"⟩ : AnalysisEntry).type =
      "clinched" := by
  refine ⟨by decide, ?_⟩
  exact claim_C10_clinched_unreachable ⟨some ("21-0"), some ("5-10"), some ("10-5"), none⟩
    ("Joueur A") ("Joueur B") ⟨"leader", "Joueur A mène de 21 points (36-15)"⟩ (by decide)
